import Mathlib

/-!
Verification model of the event-booking service in this repository:
src/lambda/booking_handler.py (Booking Service: lambda_handler,
create_booking, get_bookings) and src/lambda/notification_handler.py
(Notification Consumer: lambda_handler, process_notification).

The embedding is shallow.  JSON values returned by json.loads are the
inductive `Json`; the DynamoDB table is a list of `BookingItem` records
(put_item replaces by primary key, query filters by partition key, scan
returns everything); the SQS queue is a list of published messages, with
an injectable failure (`sqsFailure`) standing for send_message raising;
Python exceptions are `Except String`, carrying the exception text;
nondeterministic inputs of the code (uuid.uuid4, datetime.utcnow) are
explicit parameters.  Responses keep their body as an unserialized
`Json` value: json.dumps is injective on the values built here, so the
body object itself is the faithful datum.
-/

/-- Json models a Python value produced by json.loads: null, booleans,
numbers (the bodies built by this service carry no fractional numbers,
so integers suffice), strings, arrays and objects.  An object is its
field list; json.loads keeps the last occurrence of a duplicated key,
so lookups below take the last match. -/
inductive Json where
  | null
  | bool (b : Bool)
  | num (n : Int)
  | str (s : String)
  | arr (xs : List Json)
  | obj (fields : List (String × Json))
deriving Repr

mutual

/-- Json.beq decides structural equality of two Json values; it stands
for Python == on parsed JSON data (used by the store model to compare
key attributes and by the Python `in` operator on lists). -/
def Json.beq : Json → Json → Bool
  | .null, .null => true
  | .bool a, .bool b => a == b
  | .num a, .num b => a == b
  | .str a, .str b => a == b
  | .arr xs, .arr ys => Json.beqList xs ys
  | .obj xs, .obj ys => Json.beqFields xs ys
  | _, _ => false

/-- Json.beqList compares two JSON arrays elementwise. -/
def Json.beqList : List Json → List Json → Bool
  | [], [] => true
  | x :: xs, y :: ys => Json.beq x y && Json.beqList xs ys
  | _, _ => false

/-- Json.beqFields compares two JSON objects field by field. -/
def Json.beqFields : List (String × Json) → List (String × Json) → Bool
  | [], [] => true
  | (k1, v1) :: xs, (k2, v2) :: ys => k1 == k2 && Json.beq v1 v2 && Json.beqFields xs ys
  | _, _ => false

end

/-- lookupLast finds the value of a key in an association list, taking
the LAST occurrence: this matches the dict produced by json.loads,
where a duplicated key keeps its last value. -/
def lookupLast {α : Type} : List (String × α) → String → Option α
  | [], _ => none
  | (k, v) :: rest, key =>
    match lookupLast rest key with
    | some r => some r
    | none => if k = key then some v else none

/-- pyQuote is a single-quote character as a string, used by the Python
str()/repr() rendering below. -/
def pyQuote : String := String.mk [Char.ofNat 39]

mutual

/-- pyStr models Python str() as used in f-strings: identity on
strings, None/True/False for the singletons, decimal for integers, and
the repr-based rendering for lists and dicts (string escaping inside
repr is not modeled; no claim depends on it). -/
def pyStr : Json → String
  | .null => "None"
  | .bool b => if b then "True" else "False"
  | .num n => toString n
  | .str s => s
  | .arr xs => "[" ++ pyReprList xs ++ "]"
  | .obj fs => "\x7b" ++ pyReprFields fs ++ "\x7d"

/-- pyRepr models Python repr() on JSON data: like pyStr but strings
are quoted. -/
def pyRepr : Json → String
  | .null => "None"
  | .bool b => if b then "True" else "False"
  | .num n => toString n
  | .str s => pyQuote ++ s ++ pyQuote
  | .arr xs => "[" ++ pyReprList xs ++ "]"
  | .obj fs => "\x7b" ++ pyReprFields fs ++ "\x7d"

/-- pyReprList renders the comma-separated elements of a Python list. -/
def pyReprList : List Json → String
  | [] => ""
  | [x] => pyRepr x
  | x :: xs => pyRepr x ++ ", " ++ pyReprList xs

/-- pyReprFields renders the comma-separated entries of a Python dict. -/
def pyReprFields : List (String × Json) → String
  | [] => ""
  | [(k, v)] => pyQuote ++ k ++ pyQuote ++ ": " ++ pyRepr v
  | (k, v) :: fs => pyQuote ++ k ++ pyQuote ++ ": " ++ pyRepr v ++ ", " ++ pyReprFields fs

end

/-- strContains decides whether `needle` occurs as a substring of
`hay`, as Python `needle in hay` does on strings. -/
def strContains (hay needle : String) : Bool :=
  if needle = "" then true else (hay.splitOn needle).length ≥ 2

/-- pyContains models the Python expression `key in container` on a
parsed JSON value: key membership on a dict, substring test on a
string, element membership on a list, and a TypeError on the
non-iterable values. -/
def pyContains (container : Json) (key : String) : Except String Bool :=
  match container with
  | .obj fields => .ok (lookupLast fields key).isSome
  | .str s => .ok (strContains s key)
  | .arr xs => .ok (xs.any (fun x => Json.beq x (.str key)))
  | _ => .error "TypeError: argument is not iterable"

/-- pySubscript models the Python expression `container[key]` with a
string key: dict lookup (KeyError when absent), TypeError on every
other value. -/
def pySubscript (container : Json) (key : String) : Except String Json :=
  match container with
  | .obj fields =>
    match lookupLast fields key with
    | some v => .ok v
    | none => .error ("KeyError: " ++ key)
  | _ => .error "TypeError: string indices must be integers"

/-- BookingItem is the booking record assembled by create_booking and
stored in the table.  The three caller-supplied attributes keep their
JSON value (the code copies body[...] without checking the type); the
generated attributes are strings. -/
structure BookingItem where
  event_id : Json
  booking_id : String
  user_name : Json
  user_email : Json
  booking_status : String
  created_at : String
deriving Repr

/-- NotificationMessage is the payload create_booking serializes to
SQS. -/
structure NotificationMessage where
  booking_id : String
  event_id : Json
  user_email : Json
  user_name : Json
  action : String
  timestamp : String
deriving Repr

/-- AwsState is the external state the Booking Service mutates: the
DynamoDB table contents, the SQS queue contents, and an injectable
failure of sqs.send_message (some message = the next publish raises
with that text, none = publishes succeed). -/
structure AwsState where
  store : List BookingItem
  queue : List NotificationMessage
  sqsFailure : Option String
deriving Repr

/-- put_item models table.put_item: the item replaces any stored item
with the same primary key (event_id partition key, booking_id sort
key) and is appended otherwise; the write is unconditional. -/
def put_item (store : List BookingItem) (item : BookingItem) : List BookingItem :=
  store.filter (fun b => !(Json.beq b.event_id item.event_id && b.booking_id == item.booking_id))
    ++ [item]

/-- send_message models sqs.send_message: it appends the message to the
queue, unless the injected failure makes it raise. -/
def send_message (s : AwsState) (m : NotificationMessage) : Except String AwsState :=
  match s.sqsFailure with
  | some e => .error e
  | none => .ok { s with queue := s.queue ++ [m] }

/-- BodyField is the body attribute of an inbound request as
create_booking consumes it via json.loads(event[...]): the key can be
absent (KeyError), hold a string that is not valid JSON
(json.JSONDecodeError), or hold a string parsing to a JSON value.
Both caught exceptions map to the invalid-body response. -/
inductive BodyField where
  | absent
  | invalid
  | valid (j : Json)
deriving Repr

/-- ApiEvent is the API Gateway event consumed by the Booking Service:
the httpMethod (none models the key being absent, read with default
empty string), the request body, and the query string parameters (none
models the key absent or null, read with default empty dict). -/
structure ApiEvent where
  httpMethod : Option String
  body : BodyField
  queryStringParameters : Option (List (String × String))
deriving Repr

/-- Response is the Booking Service response dict: statusCode, headers
and the body object handed to json.dumps. -/
structure Response where
  statusCode : Nat
  headers : List (String × String)
  body : Json
deriving Repr

/-- corsHeaders is the header dict repeated on every Booking Service
response literal in the source. -/
def corsHeaders : List (String × String) :=
  [("Content-Type", "application/json"), ("Access-Control-Allow-Origin", "*")]

/-- jsonResponse assembles a Booking Service response with the uniform
headers. -/
def jsonResponse (code : Nat) (body : Json) : Response :=
  { statusCode := code, headers := corsHeaders, body := body }

/-- required_fields is the validation list of create_booking. -/
def required_fields : List String := ["event_id", "user_name", "user_email"]

/-- firstMissing runs the validation loop of create_booking: it
returns the first listed field not `in` the body (in list order), none
when every field is present, or propagates the TypeError that the
Python `in` operator raises on a non-iterable body. -/
def firstMissing (body : Json) : List String → Except String (Option String)
  | [] => .ok none
  | f :: rest =>
    match pyContains body f with
    | .error e => .error e
    | .ok true => firstMissing body rest
    | .ok false => .ok (some f)

/-- bookingItemToJson is the dict shape of a stored booking record, as
it appears inside response bodies. -/
def bookingItemToJson (b : BookingItem) : Json :=
  .obj [("event_id", b.event_id), ("booking_id", .str b.booking_id),
        ("user_name", b.user_name), ("user_email", b.user_email),
        ("booking_status", .str b.booking_status), ("created_at", .str b.created_at)]

/-- booking_item_of is the booking record dict literal of
create_booking, from the three caller values, the generated uuid and
the creation timestamp. -/
def booking_item_of (ev un ue : Json) (uuid timestamp : String) : BookingItem :=
  { event_id := ev, booking_id := "booking-" ++ uuid, user_name := un,
    user_email := ue, booking_status := "confirmed", created_at := timestamp }

/-- notification_message_of is the notification dict literal of
create_booking, from the same inputs. -/
def notification_message_of (ev un ue : Json) (uuid timestamp : String) : NotificationMessage :=
  { booking_id := "booking-" ++ uuid, event_id := ev, user_email := ue,
    user_name := un, action := "booking_created", timestamp := timestamp }

/-- create_booking translates the function of the same name: parse the
body (400 on the caught KeyError or JSONDecodeError), validate the
three required fields reporting the first missing one (400), then
build the booking record from the generated id `booking-` ++ uuid and
the timestamp, write it to the store, publish the notification message
and answer 201 with the record.  The returned state carries every
mutation done before a raise; an uncaught exception is the .error
case, handled by lambda_handler. -/
def create_booking (uuid timestamp : String) (event : ApiEvent) (s : AwsState) :
    Except String Response × AwsState :=
  match event.body with
  | .absent => (.ok (jsonResponse 400 (.obj [("error", .str "Invalid request body")])), s)
  | .invalid => (.ok (jsonResponse 400 (.obj [("error", .str "Invalid request body")])), s)
  | .valid body =>
    match firstMissing body required_fields with
    | .error e => (.error e, s)
    | .ok (some f) =>
      (.ok (jsonResponse 400 (.obj [("error", .str ("Missing required field: " ++ f))])), s)
    | .ok none =>
      match pySubscript body "event_id" with
      | .error e => (.error e, s)
      | .ok ev =>
        match pySubscript body "user_name" with
        | .error e => (.error e, s)
        | .ok un =>
          match pySubscript body "user_email" with
          | .error e => (.error e, s)
          | .ok ue =>
            let booking_item : BookingItem := booking_item_of ev un ue uuid timestamp
            let s1 : AwsState := { s with store := put_item s.store booking_item }
            let notification_message : NotificationMessage :=
              notification_message_of ev un ue uuid timestamp
            match send_message s1 notification_message with
            | .error e => (.error e, s1)
            | .ok s2 =>
              (.ok (jsonResponse 201 (.obj
                [("message", .str "Booking created successfully"),
                 ("booking", bookingItemToJson booking_item)])), s2)

/-- table_query models table.query with the partition-key condition
event_id = :event_id: the stored items whose event_id attribute equals
the given string. -/
def table_query (store : List BookingItem) (eid : String) : List BookingItem :=
  store.filter (fun b => Json.beq b.event_id (.str eid))

/-- scan_response is the full-scan branch of get_bookings: every
stored item and the total-count message. -/
def scan_response (s : AwsState) : Response :=
  jsonResponse 200 (.obj
    [("message", .str ("Found " ++ toString s.store.length ++ " total booking(s)")),
     ("bookings", .arr (s.store.map bookingItemToJson))])

/-- query_response is the filtered branch of get_bookings: the items
of one partition key and the per-event count message. -/
def query_response (s : AwsState) (eid : String) : Response :=
  jsonResponse 200 (.obj
    [("message", .str ("Found " ++ toString (table_query s.store eid).length
        ++ " booking(s) for event " ++ eid)),
     ("bookings", .arr ((table_query s.store eid).map bookingItemToJson))])

/-- get_bookings translates the function of the same name: read the
optional event_id query parameter and branch on its Python truthiness
(a present, non-empty string queries that partition; an absent
parameter, like an empty one, falls to the full scan). -/
def get_bookings (event : ApiEvent) (s : AwsState) : Response :=
  match lookupLast (event.queryStringParameters.getD []) "event_id" with
  | some eid => if eid = "" then scan_response s else query_response s eid
  | none => scan_response s

/-- lambda_handler translates the Booking Service dispatcher: POST to
create_booking, GET to get_bookings, 405 otherwise, and the top-level
except clause mapping any uncaught exception to a 500 response whose
body carries the exception text. -/
def lambda_handler (uuid timestamp : String) (event : ApiEvent) (s : AwsState) :
    Response × AwsState :=
  if event.httpMethod.getD "" = "POST" then
    match create_booking uuid timestamp event s with
    | (.ok r, s1) => (r, s1)
    | (.error e, s1) =>
      (jsonResponse 500 (.obj
        [("error", .str "Internal server error"), ("message", .str e)]), s1)
  else if event.httpMethod.getD "" = "GET" then
    (get_bookings event s, s)
  else
    (jsonResponse 405 (.obj [("error", .str "Method not allowed")]), s)

/-- NotificationLog is the record process_notification formats and
logs.  The recipient, action and timestamp keep whatever JSON value
the message carried (action and timestamp fall back to the literal
default and the current time). -/
structure NotificationLog where
  type : String
  action : Json
  recipient : Json
  subject : String
  message : String
  timestamp : Json
deriving Repr

/-- process_notification translates the function of the same name: on
a dict message it reads the five attributes with .get (action defaults
to unknown, timestamp to the current time, the rest to None), and
formats the subject from event_id and the message text from user_name
and booking_id; on a non-dict value .get raises AttributeError, which
the batch loop of the consumer counts as a failure. -/
def process_notification (now : String) (message : Json) : Except String NotificationLog :=
  match message with
  | .obj fields =>
    let booking_id := (lookupLast fields "booking_id").getD Json.null
    let user_email := (lookupLast fields "user_email").getD Json.null
    let user_name := (lookupLast fields "user_name").getD Json.null
    let event_id := (lookupLast fields "event_id").getD Json.null
    let action := (lookupLast fields "action").getD (Json.str "unknown")
    let timestamp := (lookupLast fields "timestamp").getD (Json.str now)
    .ok { type := "email_notification", action := action, recipient := user_email,
          subject := "Event Booking Confirmation - " ++ pyStr event_id,
          message := "Hello " ++ pyStr user_name ++ ", your booking "
            ++ pyStr booking_id ++ " has been confirmed!",
          timestamp := timestamp }
  | _ => .error "AttributeError: object has no attribute get"

/-- SqsRecordBody is one record of the consumer batch, seen through
record[...] and json.loads inside the per-record try: the body key can
be absent (KeyError), hold a non-JSON string (JSONDecodeError), or
hold a string parsing to a JSON value.  Either exception is caught by
the loop and counted as a failure. -/
inductive SqsRecordBody where
  | missing
  | invalid
  | valid (j : Json)
deriving Repr

/-- NotifResponse is the consumer invocation result: statusCode and
the body object handed to json.dumps (no headers in the source). -/
structure NotifResponse where
  statusCode : Nat
  body : Json
deriving Repr

/-- notification_step is one iteration of the consumer loop: a record
that parses and processes bumps the processed counter, any exception
bumps the failed counter, and the loop continues either way. -/
def notification_step (now : String) (acc : Nat × Nat) (r : SqsRecordBody) : Nat × Nat :=
  match r with
  | .valid j =>
    match process_notification now j with
    | .ok _ => (acc.1 + 1, acc.2)
    | .error _ => (acc.1, acc.2 + 1)
  | _ => (acc.1, acc.2 + 1)

/-- notification_lambda_handler translates the consumer dispatcher:
fold the per-record step over the batch from zero counters and answer
200 with the processed and failed counts.  The current time is a
single parameter (the code reads the clock per record; no claim
depends on the clock advancing inside one batch). -/
def notification_lambda_handler (now : String) (records : List SqsRecordBody) : NotifResponse :=
  let counts := records.foldl (notification_step now) (0, 0)
  { statusCode := 200,
    body := .obj [("processed", .num counts.1), ("failed", .num counts.2)] }

/-! Helper lemmas shared by the claim theorems. -/

/-- Appending strings to a fixed prefix is injective. -/
theorem string_append_left_cancel (p a b : String) (h : p ++ a = p ++ b) : a = b := by
  have hd := congrArg String.data h
  simp [String.data_append] at hd
  exact String.ext hd

/-- The full 201 path of the Booking Service, as one equality: with a
POST carrying an object body holding the three required keys and a
healthy queue, the handler answers 201 with the built record, the
record is written to the store and the notification is published. -/
theorem lambda_handler_post_ok (uuid timestamp : String) (event : ApiEvent) (s : AwsState)
    (fields : List (String × Json)) (ev un ue : Json)
    (hm : event.httpMethod = some "POST")
    (hb : event.body = BodyField.valid (Json.obj fields))
    (hev : lookupLast fields "event_id" = some ev)
    (hun : lookupLast fields "user_name" = some un)
    (hue : lookupLast fields "user_email" = some ue)
    (hq : s.sqsFailure = none) :
    lambda_handler uuid timestamp event s =
      (jsonResponse 201 (Json.obj
         [("message", Json.str "Booking created successfully"),
          ("booking", bookingItemToJson (booking_item_of ev un ue uuid timestamp))]),
       { store := put_item s.store (booking_item_of ev un ue uuid timestamp),
         queue := s.queue ++ [notification_message_of ev un ue uuid timestamp],
         sqsFailure := none }) := by
  cases s with
  | mk store queue sqsFailure =>
    simp only at hq
    subst hq
    simp [lambda_handler, hm, create_booking, hb, firstMissing, required_fields,
          pyContains, hev, hun, hue, pySubscript, send_message]

/-- C1: a POST whose body parses to a JSON object carrying the keys
event_id, user_name and user_email (string values, arbitrary) yields a
201 response whose body holds the success message and a booking that
copies the three caller values unchanged, has booking_status
confirmed, a booking_id prefixed with booking-, and the created_at
timestamp; the final state shows exactly one store write of that
record and one publish of the notification message carrying the same
booking_id, event_id, user_email, user_name, the action
booking_created and the same timestamp. -/
theorem create_booking_success_contract (uuid timestamp : String) (event : ApiEvent)
    (s : AwsState) (fields : List (String × Json)) (ev un ue : String)
    (hm : event.httpMethod = some "POST")
    (hb : event.body = BodyField.valid (Json.obj fields))
    (hev : lookupLast fields "event_id" = some (Json.str ev))
    (hun : lookupLast fields "user_name" = some (Json.str un))
    (hue : lookupLast fields "user_email" = some (Json.str ue))
    (hq : s.sqsFailure = none) :
    lambda_handler uuid timestamp event s =
      (jsonResponse 201 (Json.obj
         [("message", Json.str "Booking created successfully"),
          ("booking", Json.obj
            [("event_id", Json.str ev), ("booking_id", Json.str ("booking-" ++ uuid)),
             ("user_name", Json.str un), ("user_email", Json.str ue),
             ("booking_status", Json.str "confirmed"), ("created_at", Json.str timestamp)])]),
       { store := put_item s.store
           (booking_item_of (Json.str ev) (Json.str un) (Json.str ue) uuid timestamp),
         queue := s.queue ++
           [{ booking_id := "booking-" ++ uuid, event_id := Json.str ev,
              user_email := Json.str ue, user_name := Json.str un,
              action := "booking_created", timestamp := timestamp }],
         sqsFailure := none }) := by
  have h := lambda_handler_post_ok uuid timestamp event s fields
    (Json.str ev) (Json.str un) (Json.str ue) hm hb hev hun hue hq
  rw [h]
  rfl

/-- C2: a POST whose body parses to a JSON object missing at least one
required key yields 400 naming exactly the first missing field in the
order event_id, user_name, user_email, and leaves the store and the
queue untouched. -/
theorem create_booking_missing_field (uuid timestamp : String) (event : ApiEvent)
    (s : AwsState) (fields : List (String × Json))
    (hm : event.httpMethod = some "POST")
    (hb : event.body = BodyField.valid (Json.obj fields))
    (hmiss : (lookupLast fields "event_id").isNone ∨ (lookupLast fields "user_name").isNone ∨
             (lookupLast fields "user_email").isNone) :
    lambda_handler uuid timestamp event s =
      (jsonResponse 400 (Json.obj [("error", Json.str ("Missing required field: " ++
        (if (lookupLast fields "event_id").isNone then "event_id"
         else if (lookupLast fields "user_name").isNone then "user_name"
         else "user_email")))]), s) := by
  rcases h1 : lookupLast fields "event_id" with _ | v1
  · simp [lambda_handler, hm, create_booking, hb, firstMissing, required_fields,
          pyContains, h1]
  · rcases h2 : lookupLast fields "user_name" with _ | v2
    · simp [lambda_handler, hm, create_booking, hb, firstMissing, required_fields,
            pyContains, h1, h2]
    · rcases h3 : lookupLast fields "user_email" with _ | v3
      · simp [lambda_handler, hm, create_booking, hb, firstMissing, required_fields,
              pyContains, h1, h2, h3]
      · simp [h1, h2, h3] at hmiss

/-- C3: a POST whose body key is absent or whose body string is not
valid JSON yields 400 with the invalid-body error, and the state is
unchanged. -/
theorem create_booking_invalid_body (uuid timestamp : String) (event : ApiEvent)
    (s : AwsState)
    (hm : event.httpMethod = some "POST")
    (hb : event.body = BodyField.absent ∨ event.body = BodyField.invalid) :
    lambda_handler uuid timestamp event s =
      (jsonResponse 400 (Json.obj [("error", Json.str "Invalid request body")]), s) := by
  rcases hb with hb | hb <;>
    simp [lambda_handler, hm, create_booking, hb]

/-- C4: on a valid creation request where the queue publish raises,
the handler answers 500 with a body carrying the exception message,
the booking record is persisted in the store (no rollback), and
nothing is published to the queue. -/
theorem create_booking_queue_failure (uuid timestamp : String) (event : ApiEvent)
    (s : AwsState) (fields : List (String × Json)) (ev un ue : Json) (emsg : String)
    (hm : event.httpMethod = some "POST")
    (hb : event.body = BodyField.valid (Json.obj fields))
    (hev : lookupLast fields "event_id" = some ev)
    (hun : lookupLast fields "user_name" = some un)
    (hue : lookupLast fields "user_email" = some ue)
    (hq : s.sqsFailure = some emsg) :
    lambda_handler uuid timestamp event s =
      (jsonResponse 500 (Json.obj
         [("error", Json.str "Internal server error"), ("message", Json.str emsg)]),
       { s with store := put_item s.store (booking_item_of ev un ue uuid timestamp) }) ∧
    booking_item_of ev un ue uuid timestamp ∈ (lambda_handler uuid timestamp event s).2.store ∧
    (lambda_handler uuid timestamp event s).2.queue = s.queue := by
  have h : lambda_handler uuid timestamp event s =
      (jsonResponse 500 (Json.obj
         [("error", Json.str "Internal server error"), ("message", Json.str emsg)]),
       { s with store := put_item s.store (booking_item_of ev un ue uuid timestamp) }) := by
    simp [lambda_handler, hm, create_booking, hb, firstMissing, required_fields,
          pyContains, hev, hun, hue, pySubscript, send_message, hq]
  refine ⟨h, ?_, ?_⟩
  · rw [h]
    simp [put_item]
  · rw [h]

/-- C5: on a GET, a present non-empty event_id query parameter yields
200 with exactly the stored records whose partition key equals it and
the per-event count message; an absent parameter yields 200 with every
stored record and the total count message. -/
theorem get_bookings_contract (uuid timestamp : String) (event : ApiEvent) (s : AwsState)
    (hm : event.httpMethod = some "GET") :
    (∀ eid, eid ≠ "" →
      lookupLast (event.queryStringParameters.getD []) "event_id" = some eid →
      lambda_handler uuid timestamp event s =
        (jsonResponse 200 (Json.obj
          [("message", Json.str ("Found "
              ++ toString (s.store.filter (fun b => Json.beq b.event_id (Json.str eid))).length
              ++ " booking(s) for event " ++ eid)),
           ("bookings", Json.arr ((s.store.filter
              (fun b => Json.beq b.event_id (Json.str eid))).map bookingItemToJson))]), s)) ∧
    (lookupLast (event.queryStringParameters.getD []) "event_id" = none →
      lambda_handler uuid timestamp event s =
        (jsonResponse 200 (Json.obj
          [("message", Json.str ("Found " ++ toString s.store.length ++ " total booking(s)")),
           ("bookings", Json.arr (s.store.map bookingItemToJson))]), s)) := by
  constructor
  · intro eid hne hl
    simp [lambda_handler, hm, get_bookings, hl, hne, query_response, table_query, scan_response]
  · intro hl
    simp [lambda_handler, hm, get_bookings, hl, scan_response]

/-- C10: a GET whose event_id query parameter is present with the
empty-string value takes the full-scan branch, answering exactly as if
the parameter were absent, because the code tests the filter for
truthiness and an empty string is falsy. -/
theorem get_bookings_empty_event_id (event : ApiEvent) (s : AwsState)
    (hl : lookupLast (event.queryStringParameters.getD []) "event_id" = some "") :
    get_bookings event s =
      jsonResponse 200 (Json.obj
        [("message", Json.str ("Found " ++ toString s.store.length ++ " total booking(s)")),
         ("bookings", Json.arr (s.store.map bookingItemToJson))]) ∧
    get_bookings event s = get_bookings { event with queryStringParameters := none } s := by
  constructor
  · simp [get_bookings, hl, scan_response]
  · simp [get_bookings, hl, lookupLast, scan_response]

/-- Every successful result of create_booking is a response with the
uniform headers and an object body. -/
theorem create_booking_ok_shape (uuid timestamp : String) (event : ApiEvent) (s : AwsState)
    (r : Response)
    (h : (create_booking uuid timestamp event s).1 = Except.ok r) :
    ∃ code fs, r = jsonResponse code (Json.obj fs) := by
  cases hb : event.body with
  | absent =>
    simp [create_booking, hb] at h
    exact ⟨400, _, h.symm⟩
  | invalid =>
    simp [create_booking, hb] at h
    exact ⟨400, _, h.symm⟩
  | valid body =>
    cases hfm : firstMissing body required_fields with
    | error e => simp [create_booking, hb, hfm] at h
    | ok o =>
      cases o with
      | some f =>
        simp [create_booking, hb, hfm] at h
        exact ⟨400, _, h.symm⟩
      | none =>
        cases h1 : pySubscript body "event_id" with
        | error e => simp [create_booking, hb, hfm, h1] at h
        | ok ev =>
          cases h2 : pySubscript body "user_name" with
          | error e => simp [create_booking, hb, hfm, h1, h2] at h
          | ok un =>
            cases h3 : pySubscript body "user_email" with
            | error e => simp [create_booking, hb, hfm, h1, h2, h3] at h
            | ok ue =>
              cases hsm : send_message
                  { s with store := put_item s.store (booking_item_of ev un ue uuid timestamp) }
                  (notification_message_of ev un ue uuid timestamp) with
              | error e => simp [create_booking, hb, hfm, h1, h2, h3, hsm] at h
              | ok s2 =>
                simp [create_booking, hb, hfm, h1, h2, h3, hsm] at h
                exact ⟨201, _, h.symm⟩

/-- Every result of get_bookings is a response with the uniform
headers and an object body. -/
theorem get_bookings_shape (event : ApiEvent) (s : AwsState) :
    ∃ code fs, get_bookings event s = jsonResponse code (Json.obj fs) := by
  unfold get_bookings
  repeat' split
  all_goals exact ⟨_, _, rfl⟩

/-- C8: every response of the Booking Service dispatcher, on every
path (201 creation, 400 validation, 200 listing, 405 unsupported
method, 500 internal error), carries the application/json content type
header and the permissive cross-origin header, and its body is a JSON
object. -/
theorem lambda_handler_uniform_envelope (uuid timestamp : String) (event : ApiEvent)
    (s : AwsState) :
    ("Content-Type", "application/json") ∈ (lambda_handler uuid timestamp event s).1.headers ∧
    ("Access-Control-Allow-Origin", "*") ∈ (lambda_handler uuid timestamp event s).1.headers ∧
    ∃ fs, (lambda_handler uuid timestamp event s).1.body = Json.obj fs := by
  have key : ∃ code fs,
      (lambda_handler uuid timestamp event s).1 = jsonResponse code (Json.obj fs) := by
    by_cases hp : event.httpMethod.getD "" = "POST"
    · rcases hc : create_booking uuid timestamp event s with ⟨res, s1⟩
      cases res with
      | error e =>
        exact ⟨500, [("error", Json.str "Internal server error"), ("message", Json.str e)],
          by simp [lambda_handler, hp, hc]⟩
      | ok r =>
        obtain ⟨code, fs, hr⟩ := create_booking_ok_shape uuid timestamp event s r (by rw [hc])
        exact ⟨code, fs, by simp [lambda_handler, hp, hc, hr]⟩
    · by_cases hg : event.httpMethod.getD "" = "GET"
      · obtain ⟨code, fs, hgb⟩ := get_bookings_shape event s
        exact ⟨code, fs, by simp [lambda_handler, hp, hg, hgb]⟩
      · exact ⟨405, [("error", Json.str "Method not allowed")],
          by simp [lambda_handler, hp, hg]⟩
  rcases key with ⟨code, fs, hk⟩
  rw [hk]
  exact ⟨by simp [jsonResponse, corsHeaders], by simp [jsonResponse, corsHeaders], fs, rfl⟩

/-- One consumer loop iteration always bumps exactly one of the two
counters. -/
theorem notification_step_total (now : String) (acc : Nat × Nat) (r : SqsRecordBody) :
    (notification_step now acc r).1 + (notification_step now acc r).2 = acc.1 + acc.2 + 1 := by
  cases r with
  | valid j =>
    cases h : process_notification now j <;> simp [notification_step, h] <;> omega
  | missing => simp [notification_step]; omega
  | invalid => simp [notification_step]; omega

/-- One consumer loop iteration adds to the accumulator exactly what
it would add to zero counters. -/
theorem notification_step_shift (now : String) (p f : Nat) (r : SqsRecordBody) :
    notification_step now (p, f) r =
      ((notification_step now (0, 0) r).1 + p, (notification_step now (0, 0) r).2 + f) := by
  cases r with
  | valid j =>
    cases h : process_notification now j <;> simp [notification_step, h] <;> omega
  | missing => simp [notification_step]; omega
  | invalid => simp [notification_step]; omega

/-- The consumer loop from any accumulator equals the loop from zero
counters plus the accumulator. -/
theorem notification_foldl_acc (now : String) (records : List SqsRecordBody) :
    ∀ p f : Nat, records.foldl (notification_step now) (p, f) =
      ((records.foldl (notification_step now) (0, 0)).1 + p,
       (records.foldl (notification_step now) (0, 0)).2 + f) := by
  induction records with
  | nil => intro p f; simp
  | cons r rest ih =>
    intro p f
    simp only [List.foldl_cons]
    rw [notification_step_shift now p f r]
    rcases hz : notification_step now (0, 0) r with ⟨c, d⟩
    rcases hfold : rest.foldl (notification_step now) (0, 0) with ⟨P, F⟩
    rw [ih (c + p) (d + f), ih c d, hfold]
    simp
    omega

/-- The two counters of the consumer loop sum to the batch length. -/
theorem notification_counts_length (now : String) (records : List SqsRecordBody) :
    (records.foldl (notification_step now) (0, 0)).1 +
      (records.foldl (notification_step now) (0, 0)).2 = records.length := by
  induction records with
  | nil => simp
  | cons r rest ih =>
    simp only [List.foldl_cons]
    have hstep := notification_step_total now (0, 0) r
    rcases hz : notification_step now (0, 0) r with ⟨c, d⟩
    rw [hz] at hstep
    rw [notification_foldl_acc now rest c d]
    simp only [List.length_cons]
    simp at hstep
    omega

/-- The consumer loop counters are additive over batch concatenation:
the records after any point are processed the same way whatever
happened before them. -/
theorem notification_counts_append (now : String) (l1 l2 : List SqsRecordBody) :
    (l1 ++ l2).foldl (notification_step now) (0, 0) =
      ((l1.foldl (notification_step now) (0, 0)).1 +
         (l2.foldl (notification_step now) (0, 0)).1,
       (l1.foldl (notification_step now) (0, 0)).2 +
         (l2.foldl (notification_step now) (0, 0)).2) := by
  rw [List.foldl_append]
  rcases h1 : l1.foldl (notification_step now) (0, 0) with ⟨p, f⟩
  rw [notification_foldl_acc now l2 p f]
  rcases h2 : l2.foldl (notification_step now) (0, 0) with ⟨p2, f2⟩
  simp
  omega

/-- C6: on any batch, the consumer answers 200 with a body holding the
processed and failed counts, those counts sum to the batch length, and
the counts are additive over any split of the batch: a record that
fails only bumps the failed count and never prevents the processing of
the records after it, so the invocation as a whole never fails from a
single bad message. -/
theorem notification_batch_contract (now : String) (records : List SqsRecordBody) :
    (notification_lambda_handler now records).statusCode = 200 ∧
    (notification_lambda_handler now records).body =
      Json.obj [("processed", Json.num (records.foldl (notification_step now) (0, 0)).1),
                ("failed", Json.num (records.foldl (notification_step now) (0, 0)).2)] ∧
    (records.foldl (notification_step now) (0, 0)).1 +
      (records.foldl (notification_step now) (0, 0)).2 = records.length ∧
    ∀ l1 l2, records = l1 ++ l2 →
      records.foldl (notification_step now) (0, 0) =
        ((l1.foldl (notification_step now) (0, 0)).1 +
           (l2.foldl (notification_step now) (0, 0)).1,
         (l1.foldl (notification_step now) (0, 0)).2 +
           (l2.foldl (notification_step now) (0, 0)).2) := by
  refine ⟨rfl, rfl, notification_counts_length now records, ?_⟩
  intro l1 l2 h
  subst h
  exact notification_counts_append now l1 l2

/-- C7: on a message that parses to a JSON object, the consumer builds
a notification record whose action is the action of the message or
unknown when absent, whose timestamp is the timestamp of the message
or the current time when absent, whose subject line embeds the event_id
of the message, and whose message text embeds its user_name and
booking_id. -/
theorem process_notification_contract (now : String) (fields : List (String × Json)) :
    ∃ log, process_notification now (Json.obj fields) = Except.ok log ∧
      log.action = (lookupLast fields "action").getD (Json.str "unknown") ∧
      log.timestamp = (lookupLast fields "timestamp").getD (Json.str now) ∧
      log.subject = "Event Booking Confirmation - "
        ++ pyStr ((lookupLast fields "event_id").getD Json.null) ∧
      log.message = "Hello " ++ pyStr ((lookupLast fields "user_name").getD Json.null)
        ++ ", your booking " ++ pyStr ((lookupLast fields "booking_id").getD Json.null)
        ++ " has been confirmed!" :=
  ⟨_, rfl, rfl, rfl, rfl, rfl⟩

/-- C9: create is not idempotent: two successful creations from the
same request body, with distinct generated identifiers, answer two 201
bookings whose booking_id values differ, and both records sit in the
final store: no deduplication or existence check suppresses the second
creation. -/
theorem create_booking_not_idempotent (u1 u2 t1 t2 : String) (event : ApiEvent)
    (s : AwsState) (fields : List (String × Json)) (ev un ue : Json)
    (hm : event.httpMethod = some "POST")
    (hb : event.body = BodyField.valid (Json.obj fields))
    (hev : lookupLast fields "event_id" = some ev)
    (hun : lookupLast fields "user_name" = some un)
    (hue : lookupLast fields "user_email" = some ue)
    (hq : s.sqsFailure = none)
    (huu : u1 ≠ u2) :
    (lambda_handler u1 t1 event s).1.statusCode = 201 ∧
    (lambda_handler u1 t1 event s).1.body =
      Json.obj [("message", Json.str "Booking created successfully"),
                ("booking", bookingItemToJson (booking_item_of ev un ue u1 t1))] ∧
    (lambda_handler u2 t2 event (lambda_handler u1 t1 event s).2).1.statusCode = 201 ∧
    (lambda_handler u2 t2 event (lambda_handler u1 t1 event s).2).1.body =
      Json.obj [("message", Json.str "Booking created successfully"),
                ("booking", bookingItemToJson (booking_item_of ev un ue u2 t2))] ∧
    (booking_item_of ev un ue u1 t1).booking_id ≠ (booking_item_of ev un ue u2 t2).booking_id ∧
    booking_item_of ev un ue u1 t1 ∈
      (lambda_handler u2 t2 event (lambda_handler u1 t1 event s).2).2.store ∧
    booking_item_of ev un ue u2 t2 ∈
      (lambda_handler u2 t2 event (lambda_handler u1 t1 event s).2).2.store := by
  have h1 := lambda_handler_post_ok u1 t1 event s fields ev un ue hm hb hev hun hue hq
  have h2 := lambda_handler_post_ok u2 t2 event
    { store := put_item s.store (booking_item_of ev un ue u1 t1),
      queue := s.queue ++ [notification_message_of ev un ue u1 t1],
      sqsFailure := none }
    fields ev un ue hm hb hev hun hue rfl
  have hbidne : (booking_item_of ev un ue u1 t1).booking_id ≠
      (booking_item_of ev un ue u2 t2).booking_id := by
    simp only [booking_item_of]
    intro hcon
    exact huu (string_append_left_cancel "booking-" u1 u2 hcon)
  have hbid : ((booking_item_of ev un ue u1 t1).booking_id ==
      (booking_item_of ev un ue u2 t2).booking_id) = false := by
    rw [beq_eq_false_iff_ne]
    exact hbidne
  refine ⟨by rw [h1]; rfl, by rw [h1]; rfl, ?_, ?_, hbidne, ?_, ?_⟩
  · rw [h1, h2]; rfl
  · rw [h1, h2]; rfl
  · rw [h1, h2]
    simp only [put_item, List.mem_append, List.mem_filter]
    left
    constructor
    · simp [put_item]
    · simp [hbid]
  · rw [h1, h2]
    simp [put_item]

/-! Concrete inputs for the witness theorems. -/

/-- sampleFields is a concrete request body object with all three
required fields. -/
def sampleFields : List (String × Json) :=
  [("event_id", Json.str "event-123"), ("user_name", Json.str "John Doe"),
   ("user_email", Json.str "john@example.com")]

/-- samplePost is a concrete POST creation request. -/
def samplePost : ApiEvent :=
  { httpMethod := some "POST", body := BodyField.valid (Json.obj sampleFields),
    queryStringParameters := none }

/-- emptyState is the empty external state. -/
def emptyState : AwsState := { store := [], queue := [], sqsFailure := none }

/-- failState is an external state whose queue publish raises. -/
def failState : AwsState := { store := [], queue := [], sqsFailure := some "SQS unavailable" }

/-- itemA is a stored booking for event-123. -/
def itemA : BookingItem :=
  booking_item_of (Json.str "event-123") (Json.str "Ann") (Json.str "ann@example.com")
    "aaaa" "t1"

/-- itemB is a stored booking for event-456. -/
def itemB : BookingItem :=
  booking_item_of (Json.str "event-456") (Json.str "Bob") (Json.str "bob@example.com")
    "bbbb" "t2"

/-- twoBookingState is a state holding one booking each for two
events. -/
def twoBookingState : AwsState := { store := [itemA, itemB], queue := [], sqsFailure := none }

/-- sampleGet is a GET request filtering on event-123. -/
def sampleGet : ApiEvent :=
  { httpMethod := some "GET", body := BodyField.absent,
    queryStringParameters := some [("event_id", "event-123")] }

/-- emptyFilterGet is a GET request whose event_id parameter is the
empty string. -/
def emptyFilterGet : ApiEvent :=
  { httpMethod := some "GET", body := BodyField.absent,
    queryStringParameters := some [("event_id", "")] }

/-- Witness for the C1 theorem at a concrete creation request. -/
theorem create_booking_success_contract_witness :
    lambda_handler "1111" "2024-01-01T00:00:00" samplePost emptyState =
      (jsonResponse 201 (Json.obj
         [("message", Json.str "Booking created successfully"),
          ("booking", Json.obj
            [("event_id", Json.str "event-123"),
             ("booking_id", Json.str ("booking-" ++ "1111")),
             ("user_name", Json.str "John Doe"),
             ("user_email", Json.str "john@example.com"),
             ("booking_status", Json.str "confirmed"),
             ("created_at", Json.str "2024-01-01T00:00:00")])]),
       { store := put_item emptyState.store
           (booking_item_of (Json.str "event-123") (Json.str "John Doe")
             (Json.str "john@example.com") "1111" "2024-01-01T00:00:00"),
         queue := emptyState.queue ++
           [{ booking_id := "booking-" ++ "1111", event_id := Json.str "event-123",
              user_email := Json.str "john@example.com", user_name := Json.str "John Doe",
              action := "booking_created", timestamp := "2024-01-01T00:00:00" }],
         sqsFailure := none }) :=
  create_booking_success_contract "1111" "2024-01-01T00:00:00" samplePost emptyState
    sampleFields "event-123" "John Doe" "john@example.com" rfl rfl rfl rfl rfl rfl

/-- fieldsMissingEmail is a body lacking user_email. -/
def fieldsMissingEmail : List (String × Json) :=
  [("event_id", Json.str "event-123"), ("user_name", Json.str "John Doe")]

/-- Witness for the C2 theorem: omitting user_email yields the 400
naming user_email. -/
theorem create_booking_missing_field_witness :
    lambda_handler "1111" "t0"
      { httpMethod := some "POST", body := BodyField.valid (Json.obj fieldsMissingEmail),
        queryStringParameters := none } emptyState =
      (jsonResponse 400 (Json.obj
        [("error", Json.str "Missing required field: user_email")]), emptyState) := by
  have h := create_booking_missing_field "1111" "t0"
    { httpMethod := some "POST", body := BodyField.valid (Json.obj fieldsMissingEmail),
      queryStringParameters := none } emptyState fieldsMissingEmail rfl rfl
    (Or.inr (Or.inr rfl))
  rw [h]
  rfl

/-- Witness for the C3 theorem at a request with a non-JSON body. -/
theorem create_booking_invalid_body_witness :
    lambda_handler "1111" "t0"
      { httpMethod := some "POST", body := BodyField.invalid,
        queryStringParameters := none } emptyState =
      (jsonResponse 400 (Json.obj [("error", Json.str "Invalid request body")]), emptyState) :=
  create_booking_invalid_body "1111" "t0"
    { httpMethod := some "POST", body := BodyField.invalid, queryStringParameters := none }
    emptyState rfl (Or.inr rfl)

/-- Witness for the C4 theorem at a concrete request with a failing
queue. -/
theorem create_booking_queue_failure_witness :
    lambda_handler "1111" "t0" samplePost failState =
      (jsonResponse 500 (Json.obj
         [("error", Json.str "Internal server error"),
          ("message", Json.str "SQS unavailable")]),
       { store := put_item failState.store
           (booking_item_of (Json.str "event-123") (Json.str "John Doe")
             (Json.str "john@example.com") "1111" "t0"),
         queue := failState.queue, sqsFailure := failState.sqsFailure }) ∧
    booking_item_of (Json.str "event-123") (Json.str "John Doe")
      (Json.str "john@example.com") "1111" "t0" ∈
      (lambda_handler "1111" "t0" samplePost failState).2.store ∧
    (lambda_handler "1111" "t0" samplePost failState).2.queue = failState.queue :=
  create_booking_queue_failure "1111" "t0" samplePost failState sampleFields
    (Json.str "event-123") (Json.str "John Doe") (Json.str "john@example.com")
    "SQS unavailable" rfl rfl rfl rfl rfl rfl

/-- Witness for the C5 theorem: filtering on event-123 over a store
holding one matching and one non-matching booking returns exactly the
matching record with count one. -/
theorem get_bookings_contract_witness :
    lambda_handler "u" "t" sampleGet twoBookingState =
      (jsonResponse 200 (Json.obj
        [("message", Json.str "Found 1 booking(s) for event event-123"),
         ("bookings", Json.arr [bookingItemToJson itemA])]), twoBookingState) := by
  have h := (get_bookings_contract "u" "t" sampleGet twoBookingState rfl).1
    "event-123" (by decide) rfl
  rw [h]
  rfl

/-- Witness for the C6 theorem: a batch of one well-formed and one
unparsable record yields processed one, failed one, and the counts
split over the two halves of the batch. -/
theorem notification_batch_contract_witness :
    (notification_lambda_handler "t0"
       [SqsRecordBody.valid (Json.obj sampleFields), SqsRecordBody.invalid]).body =
      Json.obj [("processed", Json.num 1), ("failed", Json.num 1)] ∧
    ([SqsRecordBody.valid (Json.obj sampleFields), SqsRecordBody.invalid].foldl
        (notification_step "t0") (0, 0)) =
      (([SqsRecordBody.valid (Json.obj sampleFields)].foldl
          (notification_step "t0") (0, 0)).1 +
         ([SqsRecordBody.invalid].foldl (notification_step "t0") (0, 0)).1,
       ([SqsRecordBody.valid (Json.obj sampleFields)].foldl
          (notification_step "t0") (0, 0)).2 +
         ([SqsRecordBody.invalid].foldl (notification_step "t0") (0, 0)).2) := by
  constructor
  · have h := (notification_batch_contract "t0"
      [SqsRecordBody.valid (Json.obj sampleFields), SqsRecordBody.invalid]).2.1
    rw [h]
    rfl
  · exact (notification_batch_contract "t0"
      [SqsRecordBody.valid (Json.obj sampleFields), SqsRecordBody.invalid]).2.2.2
      [SqsRecordBody.valid (Json.obj sampleFields)] [SqsRecordBody.invalid] rfl

/-- Witness for the C9 theorem: two creations with the same body and
distinct generated uuids both answer 201 and leave two records with
distinct booking ids in the store. -/
theorem create_booking_not_idempotent_witness :
    (lambda_handler "aaaa" "t1" samplePost emptyState).1.statusCode = 201 ∧
    (lambda_handler "aaaa" "t1" samplePost emptyState).1.body =
      Json.obj [("message", Json.str "Booking created successfully"),
                ("booking", bookingItemToJson (booking_item_of (Json.str "event-123")
                  (Json.str "John Doe") (Json.str "john@example.com") "aaaa" "t1"))] ∧
    (lambda_handler "bbbb" "t2" samplePost
        (lambda_handler "aaaa" "t1" samplePost emptyState).2).1.statusCode = 201 ∧
    (lambda_handler "bbbb" "t2" samplePost
        (lambda_handler "aaaa" "t1" samplePost emptyState).2).1.body =
      Json.obj [("message", Json.str "Booking created successfully"),
                ("booking", bookingItemToJson (booking_item_of (Json.str "event-123")
                  (Json.str "John Doe") (Json.str "john@example.com") "bbbb" "t2"))] ∧
    (booking_item_of (Json.str "event-123") (Json.str "John Doe")
        (Json.str "john@example.com") "aaaa" "t1").booking_id ≠
      (booking_item_of (Json.str "event-123") (Json.str "John Doe")
        (Json.str "john@example.com") "bbbb" "t2").booking_id ∧
    booking_item_of (Json.str "event-123") (Json.str "John Doe")
        (Json.str "john@example.com") "aaaa" "t1" ∈
      (lambda_handler "bbbb" "t2" samplePost
        (lambda_handler "aaaa" "t1" samplePost emptyState).2).2.store ∧
    booking_item_of (Json.str "event-123") (Json.str "John Doe")
        (Json.str "john@example.com") "bbbb" "t2" ∈
      (lambda_handler "bbbb" "t2" samplePost
        (lambda_handler "aaaa" "t1" samplePost emptyState).2).2.store :=
  create_booking_not_idempotent "aaaa" "bbbb" "t1" "t2" samplePost emptyState
    sampleFields (Json.str "event-123") (Json.str "John Doe")
    (Json.str "john@example.com") rfl rfl rfl rfl rfl rfl (by decide)

/-- Witness for the C10 theorem: an empty event_id filter over a
two-booking store takes the full scan, exactly as with no filter. -/
theorem get_bookings_empty_event_id_witness :
    get_bookings emptyFilterGet twoBookingState =
      jsonResponse 200 (Json.obj
        [("message", Json.str ("Found " ++ toString twoBookingState.store.length
            ++ " total booking(s)")),
         ("bookings", Json.arr (twoBookingState.store.map bookingItemToJson))]) ∧
    get_bookings emptyFilterGet twoBookingState =
      get_bookings { emptyFilterGet with queryStringParameters := none } twoBookingState :=
  get_bookings_empty_event_id emptyFilterGet twoBookingState rfl
